import Mathlib

/-!
Verification development for the coralmicro segmentation RPC server.

The embedding covers:
* the base64 payload encoding used by the Response Encoder (the mjson `%V`
  format directive used by `jsonrpc_return_success`),
* the connection-buffer registry of `JsonRpcHttpServer`
  (`PostBegin` / `PostReceiveData` / `PostFinished`),
* request parsing and dispatch of the RPC core,
* the `SegmentFromCamera` handler pipeline and the `Main` startup sequence
  of `examples/segment_camera/segment_camera.cc`.

Only the header of `JsonRpcHttpServer` and the example translation units are
in the source tree; the bodies of the lifecycle hooks, the mjson dispatcher
and the base64 encoder are modelled from the specification (each such
definition says so in its doc comment).
-/

namespace CoralMicro

/-! ### Base64 encoding (Response Encoder binary embedding) -/

/-- The standard base64 alphabet, in index order. -/
def b64Alphabet : List Char :=
  ['A', 'B', 'C', 'D', 'E', 'F', 'G', 'H', 'I', 'J', 'K', 'L', 'M',
   'N', 'O', 'P', 'Q', 'R', 'S', 'T', 'U', 'V', 'W', 'X', 'Y', 'Z',
   'a', 'b', 'c', 'd', 'e', 'f', 'g', 'h', 'i', 'j', 'k', 'l', 'm',
   'n', 'o', 'p', 'q', 'r', 's', 't', 'u', 'v', 'w', 'x', 'y', 'z',
   '0', '1', '2', '3', '4', '5', '6', '7', '8', '9', '+', '/']

/-- Character for a 6-bit value. -/
def b64Char (n : Nat) : Char := b64Alphabet.getD n '?'

/-- Inverse of `b64Char`: index of a character in the base64 alphabet. -/
def b64Val (c : Char) : Option Nat := b64Alphabet.findIdx? (fun d => d = c)

/-- Modelled from the spec: the Response Encoder's base64 encoding of a
binary payload (`mjson_print_b64`, reached through the `%V` directive of
`jsonrpc_return_success`; the mjson sources are not in the tree).
Standard RFC 4648 base64 with `=` padding, three input bytes per four
output characters. -/
def base64EncodeChars : List Nat → List Char
  | [] => []
  | [a] => [b64Char (a / 4), b64Char (a % 4 * 16), '=', '=']
  | [a, b] => [b64Char (a / 4), b64Char (a % 4 * 16 + b / 16),
               b64Char (b % 16 * 4), '=']
  | a :: b :: c :: rest =>
      b64Char (a / 4) :: b64Char (a % 4 * 16 + b / 16) ::
      b64Char (b % 16 * 4 + c / 64) :: b64Char (c % 64) ::
      base64EncodeChars rest

/-- Base64 decoding, the inverse direction of `base64EncodeChars`. -/
def b64DecodeChars : List Char → Option (List Nat)
  | c1 :: c2 :: c3 :: c4 :: rest =>
      match b64Val c1, b64Val c2 with
      | some w, some x =>
        if c3 = '=' then
          if c4 = '=' then
            if rest = [] then some [w * 4 + x / 16] else none
          else none
        else
          match b64Val c3 with
          | some y =>
            if c4 = '=' then
              if rest = [] then some [w * 4 + x / 16, x % 16 * 16 + y / 4]
              else none
            else
              match b64Val c4, b64DecodeChars rest with
              | some z, some bs =>
                  some ((w * 4 + x / 16) :: (x % 16 * 16 + y / 4) ::
                        (y % 4 * 64 + z) :: bs)
              | _, _ => none
          | none => none
      | _, _ => none
  | [] => some []
  | _ => none

/-- String-level base64 encoding. -/
def base64Encode (l : List Nat) : String := String.mk (base64EncodeChars l)

/-- String-level base64 decoding. -/
def base64Decode (s : String) : Option (List Nat) := b64DecodeChars s.data

/-! ### Connection Buffer Registry (`JsonRpcHttpServer` lifecycle hooks) -/

/-- The connection-to-buffer map of `JsonRpcHttpServer`
(`std::map<void*, std::vector<char>> buffers_` in `rpc_http_server.h`),
modelled as an association list keyed by an opaque connection handle. -/
def Registry : Type := List (Nat × List Nat)

/-- Replace the buffer stored under `conn`, leaving other entries alone. -/
def setEntry : Registry → Nat → List Nat → Registry
  | [], _, _ => []
  | (c, b) :: rest, conn, buf =>
      if c = conn then (conn, buf) :: rest else (c, b) :: setEntry rest conn buf

/-- Remove the entry stored under `conn`. -/
def removeEntry : Registry → Nat → Registry
  | [], _ => []
  | (c, b) :: rest, conn =>
      if c = conn then rest else (c, b) :: removeEntry rest conn

/-- Modelled from the spec: `JsonRpcHttpServer::PostBegin` (body not in the
tree) registers a fresh buffer reserved to `declaredLength` under `conn`;
it fails (ProtocolError) if `conn` is already registered. The reservation
only affects capacity, not contents, so `declaredLength` has no semantic
effect here. -/
def postBegin (reg : Registry) (conn : Nat) (declaredLength : Nat) :
    Option Registry :=
  match reg.lookup conn with
  | some _ => none
  | none => some ((conn, []) :: reg)

/-- Modelled from the spec: `JsonRpcHttpServer::PostReceiveData` (body not in
the tree) appends `chunk` to the buffer registered under `conn`; it fails
(ProtocolError) if `conn` is unknown. -/
def postReceiveData (reg : Registry) (conn : Nat) (chunk : List Nat) :
    Option Registry :=
  match reg.lookup conn with
  | some buf => some (setEntry reg conn (buf ++ chunk))
  | none => none

/-- Modelled from the spec: `JsonRpcHttpServer::PostFinished` (body not in
the tree) removes and returns ownership of the buffer registered under
`conn`; for an unknown `conn` it is a total no-op that returns nothing. -/
def postFinished (reg : Registry) (conn : Nat) : Registry × Option (List Nat) :=
  match reg.lookup conn with
  | some buf => (removeEntry reg conn, some buf)
  | none => (reg, none)

/-- Concatenation of a chunk partition back into one byte sequence. -/
def joinChunks : List (List Nat) → List Nat
  | [] => []
  | c :: rest => c ++ joinChunks rest

/-- Feed a list of chunks through `postReceiveData`, one call per chunk,
in order. -/
def feedChunks (conn : Nat) : Registry → List (List Nat) → Option Registry
  | reg, [] => some reg
  | reg, ch :: rest =>
      match postReceiveData reg conn ch with
      | some reg1 => feedChunks conn reg1 rest
      | none => none

/-- The full per-connection lifecycle: `Begin`, one `ReceiveData` per chunk
in order, then `Finished`; returns the assembled body handed to the
dispatcher. -/
def feedRequest (reg : Registry) (conn : Nat) (chunks : List (List Nat)) :
    Option (List Nat) :=
  match postBegin reg conn (joinChunks chunks).length with
  | none => none
  | some reg1 =>
      match feedChunks conn reg1 chunks with
      | none => none
      | some reg2 => (postFinished reg2 conn).2

/-! ### RPC Dispatcher (request parsing, method lookup) -/

/-- Opening brace character (written numerically throughout). -/
def lbrace : Char := Char.ofNat 123

/-- Closing brace character (written numerically throughout). -/
def rbrace : Char := Char.ofNat 125

/-- The request envelope `id/method/params` parsed from an assembled body. -/
structure RpcRequest where
  id : Int
  method : String
  params : String
deriving DecidableEq, Repr

/-- Drop leading JSON whitespace. -/
def skipWs : List Char → List Char
  | c :: rest =>
      if c = ' ' ∨ c = '\n' ∨ c = '\t' ∨ c = '\r' then skipWs rest
      else c :: rest
  | [] => []

/-- Consume one expected character. -/
def expectChar (c : Char) : List Char → Option (List Char)
  | d :: rest => if d = c then some rest else none
  | [] => none

/-- Consume a quoted object key followed by a colon, whitespace allowed. -/
def expectKey (key : String) (s : List Char) : Option (List Char) :=
  let s1 := skipWs s
  let pat := '"' :: key.data ++ ['"']
  if pat.isPrefixOf s1 then expectChar ':' (skipWs (s1.drop pat.length))
  else none

/-- Split off a maximal run of decimal digits. -/
def takeDigits : List Char → List Char × List Char
  | c :: rest =>
      if c.isDigit then
        let p := takeDigits rest
        (c :: p.1, p.2)
      else ([], c :: rest)
  | [] => ([], [])

/-- Numeric value of a digit run. -/
def digitsToNat (ds : List Char) : Nat :=
  ds.foldl (fun acc c => acc * 10 + (c.toNat - 48)) 0

/-- Parse a JSON integer (optional leading minus, at least one digit). -/
def parseIntLit (s : List Char) : Option (Int × List Char) :=
  match s with
  | '-' :: rest =>
      match takeDigits rest with
      | ([], _) => none
      | (ds, r) => some (-(digitsToNat ds : Int), r)
  | _ =>
      match takeDigits s with
      | ([], _) => none
      | (ds, r) => some ((digitsToNat ds : Int), r)

/-- Simple escape resolution inside a JSON string literal. -/
def unescapeChar (c : Char) : Char :=
  if c = 'n' then '\n' else if c = 't' then '\t'
  else if c = 'r' then '\r' else c

/-- Scan the interior of a string literal up to the closing quote. -/
def parseStringAux : List Char → Option (List Char × List Char)
  | [] => none
  | c :: rest =>
      if c = '"' then some ([], rest)
      else if c = '\\' then
        match rest with
        | [] => none
        | d :: rest2 =>
            match parseStringAux rest2 with
            | some (s, r) => some (unescapeChar d :: s, r)
            | none => none
      else
        match parseStringAux rest with
        | some (s, r) => some (c :: s, r)
        | none => none

/-- Parse a JSON string literal starting at its opening quote. -/
def parseStringLit : List Char → Option (String × List Char)
  | c :: rest =>
      if c = '"' then
        match parseStringAux rest with
        | some (s, r) => some (String.mk s, r)
        | none => none
      else none
  | [] => none

/-- Consume the params value: everything up to the envelope's closing
brace, kept as raw text. -/
def takeParams (s : List Char) : Option (String × List Char) :=
  match skipWs s.reverse with
  | c :: rest => if c = rbrace then some (String.mk rest.reverse, []) else none
  | [] => none

/-- Modelled from the spec: the Dispatcher's parse of an assembled body as
the request envelope `{"id": <number>, "method": "<string>", "params":
<object|null>}` (the mjson parser is not in the tree). The `params` value is
kept as raw text. -/
def parseRequestChars (s : List Char) : Option RpcRequest := do
  let s1 ← expectChar lbrace (skipWs s)
  let s2 ← expectKey "id" s1
  let (idv, s3) ← parseIntLit (skipWs s2)
  let s4 ← expectChar ',' (skipWs s3)
  let s5 ← expectKey "method" s4
  let (m, s6) ← parseStringLit (skipWs s5)
  let s7 ← expectChar ',' (skipWs s6)
  let s8 ← expectKey "params" s7
  let (praw, _) ← takeParams (skipWs s8)
  pure { id := idv, method := m, params := praw }

/-- Parse an assembled byte buffer as a request envelope. -/
def parseRequestBytes (bytes : List Nat) : Option RpcRequest :=
  parseRequestChars (bytes.map Char.ofNat)

/-- A handler's reported outcome at the dispatcher level: exactly one of
`Success(value)` or `Error(code, message)`. -/
inductive HandlerOutcome where
  | success (value : String)
  | error (code : Int) (message : String)
deriving DecidableEq

/-- A dispatcher-level response: a tagged outcome carrying the echoed
request id, or no id if parsing failed before one could be read. -/
inductive DispatchResponse where
  | result (id : Option Int) (value : String)
  | error (id : Option Int) (code : Int) (message : String)
deriving DecidableEq, Repr

/-- JSON-RPC code emitted when the body does not parse. -/
def parseErrorCode : Int := -32700

/-- JSON-RPC code emitted when the method is not in the MethodTable. -/
def methodNotFoundCode : Int := -32601

/-- The MethodTable: a name-to-handler mapping fixed at startup. -/
def MethodTable : Type := List (String × (String → HandlerOutcome))

/-- Modelled from the spec: the Dispatcher (`jsonrpc_ctx_process` of mjson,
not in the tree). Parses the body; on failure emits a parse error with no
id. Then looks the method up in the MethodTable; if absent, emits the
method-not-found error echoing the id. Otherwise invokes the handler on the
params and forwards its outcome with the id attached. The first component
records which handler (if any) was invoked. -/
def dispatchBytes (table : MethodTable) (bytes : List Nat) :
    Option String × DispatchResponse :=
  match parseRequestBytes bytes with
  | none => (none, DispatchResponse.error none parseErrorCode "parse error")
  | some req =>
      match table.lookup req.method with
      | none =>
          (none, DispatchResponse.error (some req.id) methodNotFoundCode
            "method not found")
      | some h =>
          match h req.params with
          | HandlerOutcome.success v =>
              (some req.method, DispatchResponse.result (some req.id) v)
          | HandlerOutcome.error c m =>
              (some req.method, DispatchResponse.error (some req.id) c m)

/-! ### Response Encoder (success value and envelope serialization) -/

/-- The success value of `segment_from_camera`: width, height and the two
base64-embedded binary payloads. -/
structure SuccessValue where
  width : Nat
  height : Nat
  base64Data : String
  outputMask : String
deriving DecidableEq, Repr

/-- Modelled from the spec: the Encoder's packaging of a success value
(`jsonrpc_return_success` with format
`{%Q: %d, %Q: %d, %Q: %V, %Q: %V}` at `segment_camera.cc:114`; the `%V`
directive base64-encodes a length/pointer pair). -/
def mkSuccessValue (width height : Nat) (data mask : List Nat) :
    SuccessValue :=
  { width := width, height := height,
    base64Data := base64Encode data, outputMask := base64Encode mask }

/-- Concatenation of per-character expansions. -/
def concatMapChars (f : Char → List Char) : List Char → List Char
  | [] => []
  | c :: rest => f c ++ concatMapChars f rest

/-- Quote-escaping of one character inside a JSON string value. -/
def escapeJsonChar (c : Char) : List Char :=
  if c = '"' then ['\\', '"']
  else if c = '\\' then ['\\', '\\']
  else [c]

/-- Quote-escaping of a JSON string value. -/
def escapeJsonString (s : String) : String :=
  String.mk (concatMapChars escapeJsonChar s.data)

/-- Handler-level response: `Success(value)` or `Error(code, message)`
carrying the echoed request id (or none). -/
inductive RpcResponse where
  | success (id : Option Int) (value : SuccessValue)
  | error (id : Option Int) (code : Int) (message : String)
deriving DecidableEq, Repr

/-- The JSON text of a success value, field order as in
`segment_camera.cc:114`. -/
def encodeSuccessJson (v : SuccessValue) : String :=
  "\x7b\"width\":" ++ toString v.width ++ ",\"height\":" ++ toString v.height
    ++ ",\"base64_data\":\"" ++ v.base64Data ++ "\",\"output_mask\":\""
    ++ v.outputMask ++ "\"\x7d"

/-- Modelled from the spec: serialization of a response into the canonical
envelope `{"id":<id>,"result":<value>}` or
`{"id":<id|null>,"error":{"code":<int>,"message":"<string>"}}` (the mjson
`jsonrpc_return_*` printers are not in the tree). -/
def encodeResponse : RpcResponse → String
  | RpcResponse.success (some i) v =>
      "\x7b\"id\":" ++ toString i ++ ",\"result\":" ++ encodeSuccessJson v
        ++ "\x7d"
  | RpcResponse.success none v =>
      "\x7b\"id\":null,\"result\":" ++ encodeSuccessJson v ++ "\x7d"
  | RpcResponse.error (some i) c m =>
      "\x7b\"id\":" ++ toString i ++ ",\"error\":\x7b\"code\":" ++ toString c
        ++ ",\"message\":\"" ++ escapeJsonString m ++ "\"\x7d\x7d"
  | RpcResponse.error none c m =>
      "\x7b\"id\":null,\"error\":\x7b\"code\":" ++ toString c
        ++ ",\"message\":\"" ++ escapeJsonString m ++ "\"\x7d\x7d"

/-! ### Hardware-bound pipeline: `SegmentFromCamera`
(`segment_camera.cc:65-118`) -/

/-- One camera-facing call made by the handler, in program order. -/
inductive CamEvent where
  | setPower (powered : Bool)
  | enable
  | disable
  | getFrame
deriving DecidableEq, Repr

/-- The camera environment a single handler run observes: the reported
success of the two `GetFrame` calls and the frame bytes each writes into
the image buffer. -/
structure CameraEnv where
  frame1Ok : Bool
  frame2Ok : Bool
  frame1 : List Nat
  frame2 : List Nat
deriving DecidableEq, Repr

/-- The interpreter-side context of one handler run: the input tensor
dimensions `dims->data[1]` (height) and `dims->data[2]` (width), whether
`Invoke()` reports `kTfLiteOk`, and the bytes of the output tensor. -/
structure ModelCtx where
  inputDimH : Nat
  inputDimW : Nat
  invokeOk : Bool
  outputBytes : List Nat
deriving DecidableEq, Repr

/-- Everything one run of the handler did: the camera calls issued, the
bytes copied into the inference input buffer (if any), whether `Invoke`
was called, and the response reported through the outcome sink. -/
structure HandlerTrace where
  events : List CamEvent
  inputCopied : Option (List Nat)
  invoked : Bool
  response : RpcResponse
deriving DecidableEq, Repr

/-- The camera-facing calls of `SegmentFromCamera`, identical on every
path: `SetPower(true)`, `Enable`, two `GetFrame`s, `Disable`,
`SetPower(false)` (`segment_camera.cc:73-94`), all issued before any
return. -/
def segCamEvents : List CamEvent :=
  [CamEvent.setPower true, CamEvent.enable, CamEvent.getFrame,
   CamEvent.getFrame, CamEvent.disable, CamEvent.setPower false]

/-- Shallow embedding of `SegmentFromCamera` (`segment_camera.cc:65-118`).
`ret` is assigned the result of the first `GetFrame` and immediately
overwritten by the result of the second (`lines 90-91`); the image buffer
holds the second frame's bytes. On `!ret` the handler reports the camera
error and returns; otherwise it copies the image into the input tensor,
invokes, and reports either the invoke error or the success value. -/
def segmentFromCamera (model : ModelCtx) (cam : CameraEnv)
    (reqId : Option Int) : HandlerTrace :=
  let modelHeight := model.inputDimH
  let modelWidth := model.inputDimW
  let ret := cam.frame1Ok
  let ret := cam.frame2Ok
  let image := cam.frame2
  if !ret then
    { events := segCamEvents, inputCopied := none, invoked := false,
      response :=
        RpcResponse.error reqId (-1) "Failed to get image from camera." }
  else if !model.invokeOk then
    { events := segCamEvents, inputCopied := some image, invoked := true,
      response := RpcResponse.error reqId (-1) "Invoke failed" }
  else
    { events := segCamEvents, inputCopied := some image, invoked := true,
      response := RpcResponse.success reqId
        (mkSuccessValue modelWidth modelHeight image model.outputBytes) }

/-- Camera power state after a list of camera calls, from a given initial
state. -/
def camPowerAfter (init : Bool) (events : List CamEvent) : Bool :=
  events.foldl
    (fun p e =>
      match e with
      | CamEvent.setPower b => b
      | _ => p)
    init

/-- Number of `GetFrame` calls in a list of camera calls. -/
def countFrameCaptures (events : List CamEvent) : Nat :=
  (events.filter
    (fun e =>
      match e with
      | CamEvent.getFrame => true
      | _ => false)).length

/-! ### Startup: `Main` (`segment_camera.cc:120-158`) -/

/-- The outcomes of the four startup checks in `Main`: model file read,
EdgeTPU device open, tensor allocation, and the loaded model's number of
input tensors. -/
structure StartupEnv where
  modelReadOk : Bool
  tpuContextOk : Bool
  allocateOk : Bool
  numInputTensors : Nat
deriving DecidableEq, Repr

/-- What `Main` does: suspend the task before exposing the server, or
register `segment_from_camera` and install the HTTP server for a model
with the given number of input tensors. -/
inductive MainOutcome where
  | suspendedBeforeServer
  | serverStarted (numInputTensors : Nat)
deriving DecidableEq, Repr

/-- Shallow embedding of `Main` (`segment_camera.cc:120-158`): each failed
check prints and suspends the task; only if the model file reads, the
EdgeTPU opens, `AllocateTensors` succeeds and the model has exactly one
input tensor does it register the method and install the server. -/
def mainStartup (e : StartupEnv) : MainOutcome :=
  if !e.modelReadOk then MainOutcome.suspendedBeforeServer
  else if !e.tpuContextOk then MainOutcome.suspendedBeforeServer
  else if !e.allocateOk then MainOutcome.suspendedBeforeServer
  else if e.numInputTensors ≠ 1 then MainOutcome.suspendedBeforeServer
  else MainOutcome.serverStarted e.numInputTensors
/-! ### Concrete inputs used by the witnesses -/

/-- Byte sequence of a string (ASCII request bodies). -/
def strBytes (s : String) : List Nat := s.data.map Char.toNat

/-- First chunk of the example request body. -/
def exampleBodyA : List Nat := strBytes "\x7b\"id\":1,\"method\":\"segm"

/-- Second chunk of the example request body. -/
def exampleBodyB : List Nat := strBytes "ent_from_camera\",\"par"

/-- Third chunk of the example request body. -/
def exampleBodyC : List Nat := strBytes "ams\":null\x7d"

/-- A request body whose method is not in the example MethodTable. -/
def exampleUnknownBody : List Nat :=
  strBytes "\x7b\"id\":7,\"method\":\"nope\",\"params\":null\x7d"

/-- A MethodTable exporting only `segment_from_camera`. -/
def exampleTable : MethodTable :=
  [("segment_from_camera", fun _ => HandlerOutcome.success "ok")]

/-- A camera environment whose second capture fails. -/
def camFailEnv : CameraEnv :=
  { frame1Ok := true, frame2Ok := false, frame1 := [], frame2 := [] }

/-- A camera environment whose second capture succeeds. -/
def camOkEnv : CameraEnv :=
  { frame1Ok := false, frame2Ok := true, frame1 := [9],
    frame2 := [0, 255, 100] }

/-- A model context whose invocation succeeds. -/
def modelEnv1 : ModelCtx :=
  { inputDimH := 2, inputDimW := 3, invokeOk := true, outputBytes := [7] }

/-- A model context whose invocation fails. -/
def modelEnvFail : ModelCtx :=
  { inputDimH := 2, inputDimW := 3, invokeOk := false, outputBytes := [7] }

/-! ### Helper lemmas -/

theorem b64Val_b64Char_table : ∀ n < 64, b64Val (b64Char n) = some n := by
  decide

theorem b64Char_ne_pad : ∀ n < 64, b64Char n ≠ '=' := by
  decide

theorem b64Val_b64Char {n : Nat} (h : n < 64) : b64Val (b64Char n) = some n :=
  b64Val_b64Char_table n h

theorem b64Char_ne_pad_of_lt {n : Nat} (h : n < 64) : b64Char n ≠ '=' :=
  b64Char_ne_pad n h

theorem b64_roundtrip : ∀ l : List Nat, (∀ b ∈ l, b < 256) →
    b64DecodeChars (base64EncodeChars l) = some l
  | [], _ => rfl
  | [a], h => by
      have ha : a < 256 := h a (by simp)
      have h1 : b64Val (b64Char (a / 4)) = some (a / 4) :=
        b64Val_b64Char (by omega)
      have h2 : b64Val (b64Char (a % 4 * 16)) = some (a % 4 * 16) :=
        b64Val_b64Char (by omega)
      simp only [base64EncodeChars, b64DecodeChars, h1, h2, eq_self_iff_true,
        ite_true, Option.some.injEq, List.cons.injEq, and_true]
      omega
  | [a, b], h => by
      have ha : a < 256 := h a (by simp)
      have hb : b < 256 := h b (by simp)
      have h1 : b64Val (b64Char (a / 4)) = some (a / 4) :=
        b64Val_b64Char (by omega)
      have h2 : b64Val (b64Char (a % 4 * 16 + b / 16)) =
          some (a % 4 * 16 + b / 16) := b64Val_b64Char (by omega)
      have h3 : b64Val (b64Char (b % 16 * 4)) = some (b % 16 * 4) :=
        b64Val_b64Char (by omega)
      have hne : ¬ (b64Char (b % 16 * 4) = '=') :=
        b64Char_ne_pad_of_lt (by omega)
      simp only [base64EncodeChars, b64DecodeChars, h1, h2, h3, hne,
        eq_self_iff_true, ite_true, ite_false, if_false,
        Option.some.injEq, List.cons.injEq, and_true]
      omega
  | a :: b :: c :: rest, h => by
      have ha : a < 256 := h a (by simp)
      have hb : b < 256 := h b (by simp)
      have hc : c < 256 := h c (by simp)
      have ih := b64_roundtrip rest (fun x hx => h x (by simp [hx]))
      have h1 : b64Val (b64Char (a / 4)) = some (a / 4) :=
        b64Val_b64Char (by omega)
      have h2 : b64Val (b64Char (a % 4 * 16 + b / 16)) =
          some (a % 4 * 16 + b / 16) := b64Val_b64Char (by omega)
      have h3 : b64Val (b64Char (b % 16 * 4 + c / 64)) =
          some (b % 16 * 4 + c / 64) := b64Val_b64Char (by omega)
      have h4 : b64Val (b64Char (c % 64)) = some (c % 64) :=
        b64Val_b64Char (by omega)
      have hne3 : ¬ (b64Char (b % 16 * 4 + c / 64) = '=') :=
        b64Char_ne_pad_of_lt (by omega)
      have hne4 : ¬ (b64Char (c % 64) = '=') :=
        b64Char_ne_pad_of_lt (by omega)
      simp only [base64EncodeChars, b64DecodeChars, h1, h2, h3, h4,
        hne3, hne4, ih, ite_false, if_false,
        Option.some.injEq, List.cons.injEq, and_true]
      omega

theorem lookup_cons_self (conn : Nat) (buf : List Nat) (reg : Registry) :
    List.lookup conn ((conn, buf) :: reg) = some buf := by
  simp [List.lookup]

theorem setEntry_cons_self (conn : Nat) (buf buf0 : List Nat) (reg : Registry) :
    setEntry ((conn, buf0) :: reg) conn buf = (conn, buf) :: reg := by
  simp [setEntry]

theorem feedChunks_cons_entry (conn : Nat) (reg : Registry) :
    ∀ (chunks : List (List Nat)) (buf : List Nat),
      feedChunks conn ((conn, buf) :: reg) chunks
        = some ((conn, buf ++ joinChunks chunks) :: reg)
  | [], buf => by simp [feedChunks, joinChunks]
  | ch :: rest, buf => by
      simp only [feedChunks, postReceiveData, lookup_cons_self,
        setEntry_cons_self]
      rw [feedChunks_cons_entry conn reg rest (buf ++ ch)]
      simp [joinChunks, List.append_assoc]

theorem feedRequest_assembles (reg : Registry) (conn : Nat)
    (chunks : List (List Nat)) (h : reg.lookup conn = none) :
    feedRequest reg conn chunks = some (joinChunks chunks) := by
  simp only [feedRequest, postBegin, h]
  rw [feedChunks_cons_entry conn reg chunks []]
  simp [postFinished, lookup_cons_self]

/-- The parser on the assembled example body. -/
theorem parse_example_body :
    parseRequestBytes (joinChunks [exampleBodyA, exampleBodyB, exampleBodyC])
      = some { id := 1, method := "segment_from_camera", params := "null" } :=
  rfl

/-! ### Claims -/

/-- Claim C1: for every execution of the `segment_from_camera` pipeline
handler, on every exit path (success, acquisition failure, or computation
failure) the camera device power state at handler exit is off, from any
initial power state. -/
theorem segment_camera_power_off_on_exit (model : ModelCtx) (cam : CameraEnv)
    (reqId : Option Int) (init : Bool) :
    camPowerAfter init (segmentFromCamera model cam reqId).events = false := by
  obtain ⟨f1ok, f2ok, f1, f2⟩ := cam
  obtain ⟨dh, dw, inv, out⟩ := model
  cases f2ok <;> cases inv <;> rfl

/-- Claim C2: for any fresh connection and any partition of a request body
into chunks, feeding the chunks through `Begin`, then `ReceiveData` once
per chunk in order, then `Finished`, yields the same parsed request as
feeding the whole byte sequence in a single chunk. -/
theorem chunked_request_equals_unchunked (reg : Registry) (conn : Nat)
    (chunks : List (List Nat)) (h : reg.lookup conn = none) :
    (feedRequest reg conn chunks).map parseRequestBytes
      = (feedRequest reg conn [joinChunks chunks]).map parseRequestBytes := by
  rw [feedRequest_assembles reg conn chunks h,
    feedRequest_assembles reg conn [joinChunks chunks] h]
  simp [joinChunks]

/-- Witness for Claim C2: the example body split into three chunks parses
exactly as the unchunked body does. -/
theorem chunked_request_equals_unchunked_witness :
    (feedRequest [(9, [1])] 0
        [exampleBodyA, exampleBodyB, exampleBodyC]).map parseRequestBytes
      = (feedRequest [(9, [1])] 0
          [joinChunks [exampleBodyA, exampleBodyB, exampleBodyC]]).map
            parseRequestBytes :=
  chunked_request_equals_unchunked [(9, [1])] 0
    [exampleBodyA, exampleBodyB, exampleBodyC] rfl

/-- Claim C3: if sample acquisition fails (the second `GetFrame` reports
failure) for a request with id 1, the encoded response is exactly
`{"id":1,"error":{"code":-1,"message":"Failed to get image from
camera."}}`, and the handler returns without running the computation or
producing a result. -/
theorem segment_camera_acquisition_failure (model : ModelCtx)
    (cam : CameraEnv) (h : cam.frame2Ok = false) :
    encodeResponse (segmentFromCamera model cam (some 1)).response
        = "\x7b\"id\":1,\"error\":\x7b\"code\":-1,\"message\":\"Failed to get image from camera.\"\x7d\x7d"
      ∧ (segmentFromCamera model cam (some 1)).invoked = false
      ∧ (segmentFromCamera model cam (some 1)).inputCopied = none
      ∧ ∀ i v, (segmentFromCamera model cam (some 1)).response
          ≠ RpcResponse.success i v := by
  obtain ⟨f1ok, f2ok, f1, f2⟩ := cam
  cases f2ok
  · exact ⟨rfl, rfl, rfl, fun i v hcon => RpcResponse.noConfusion hcon⟩
  · simp at h

/-- Witness for Claim C3: the exact error envelope at a concrete failing
camera environment. -/
theorem segment_camera_acquisition_failure_witness :
    encodeResponse (segmentFromCamera modelEnv1 camFailEnv (some 1)).response
        = "\x7b\"id\":1,\"error\":\x7b\"code\":-1,\"message\":\"Failed to get image from camera.\"\x7d\x7d"
      ∧ (segmentFromCamera modelEnv1 camFailEnv (some 1)).invoked = false
      ∧ (segmentFromCamera modelEnv1 camFailEnv (some 1)).inputCopied = none
      ∧ ∀ i v, (segmentFromCamera modelEnv1 camFailEnv (some 1)).response
          ≠ RpcResponse.success i v :=
  segment_camera_acquisition_failure modelEnv1 camFailEnv rfl

/-- Claim C4: on success, the handler's result value has `width` and
`height` equal to the input tensor's width (`dims->data[2]`) and height
(`dims->data[1]`), `base64_data` equal to the base64 encoding of the raw
captured input bytes, and `output_mask` equal to the base64 encoding of the
model's output buffer. -/
theorem segment_camera_success_result (model : ModelCtx) (cam : CameraEnv)
    (reqId : Option Int) (h2 : cam.frame2Ok = true)
    (hi : model.invokeOk = true) :
    (segmentFromCamera model cam reqId).response
      = RpcResponse.success reqId
          { width := model.inputDimW, height := model.inputDimH,
            base64Data := base64Encode cam.frame2,
            outputMask := base64Encode model.outputBytes } := by
  obtain ⟨f1ok, f2ok, f1, f2⟩ := cam
  obtain ⟨dh, dw, inv, out⟩ := model
  cases f2ok
  · simp at h2
  · cases inv
    · simp at hi
    · rfl

/-- Witness for Claim C4: the success value at a concrete environment. -/
theorem segment_camera_success_result_witness :
    (segmentFromCamera modelEnv1 camOkEnv (some 1)).response
      = RpcResponse.success (some 1)
          { width := modelEnv1.inputDimW, height := modelEnv1.inputDimH,
            base64Data := base64Encode camOkEnv.frame2,
            outputMask := base64Encode modelEnv1.outputBytes } :=
  segment_camera_success_result modelEnv1 camOkEnv (some 1) rfl rfl

/-- Claim C5: when a sample was captured, it is copied into the inference
engine's input buffer and the computation is invoked; if the invocation
does not report success, the handler reports error code -1 with message
`Invoke failed` and returns without producing a result. -/
theorem segment_camera_compute_stage (model : ModelCtx) (cam : CameraEnv)
    (reqId : Option Int) (h2 : cam.frame2Ok = true) :
    (segmentFromCamera model cam reqId).inputCopied = some cam.frame2
    ∧ (segmentFromCamera model cam reqId).invoked = true
    ∧ (model.invokeOk = false →
        (segmentFromCamera model cam reqId).response
            = RpcResponse.error reqId (-1) "Invoke failed"
        ∧ ∀ i v, (segmentFromCamera model cam reqId).response
            ≠ RpcResponse.success i v) := by
  obtain ⟨f1ok, f2ok, f1, f2⟩ := cam
  obtain ⟨dh, dw, inv, out⟩ := model
  cases f2ok
  · simp at h2
  · cases inv
    · exact ⟨rfl, rfl,
        fun _ => ⟨rfl, fun i v hcon => RpcResponse.noConfusion hcon⟩⟩
    · exact ⟨rfl, rfl, fun hfalse => by simp at hfalse⟩

/-- Witness for Claim C5: the compute stage at a concrete environment whose
invocation fails. -/
theorem segment_camera_compute_stage_witness :
    (segmentFromCamera modelEnvFail camOkEnv (some 2)).inputCopied
        = some camOkEnv.frame2
    ∧ (segmentFromCamera modelEnvFail camOkEnv (some 2)).invoked = true
    ∧ (modelEnvFail.invokeOk = false →
        (segmentFromCamera modelEnvFail camOkEnv (some 2)).response
            = RpcResponse.error (some 2) (-1) "Invoke failed"
        ∧ ∀ i v, (segmentFromCamera modelEnvFail camOkEnv (some 2)).response
            ≠ RpcResponse.success i v) :=
  segment_camera_compute_stage modelEnvFail camOkEnv (some 2) rfl

/-- Claim C6: calling `Finished` (`PostFinished`) on a connection with no
registered buffer produces no response and leaves the registry unchanged
(the operation is a total function, so it never faults). -/
theorem post_finished_unknown (reg : Registry) (conn : Nat)
    (h : reg.lookup conn = none) :
    postFinished reg conn = (reg, none) := by
  simp [postFinished, h]

/-- Witness for Claim C6: `PostFinished` on an unregistered connection of a
concrete registry. -/
theorem post_finished_unknown_witness :
    postFinished [(1, [2])] 5 = ([(1, [2])], none) :=
  post_finished_unknown [(1, [2])] 5 rfl

/-- Claim C7: for every well-formed request whose method name is absent
from the MethodTable, the Dispatcher emits the method-not-found error
echoing the request's id, and no handler is invoked. -/
theorem dispatch_method_not_found (table : MethodTable) (bytes : List Nat)
    (req : RpcRequest) (hp : parseRequestBytes bytes = some req)
    (hm : table.lookup req.method = none) :
    dispatchBytes table bytes
      = (none, DispatchResponse.error (some req.id) methodNotFoundCode
          "method not found") := by
  simp [dispatchBytes, hp, hm]

/-- Witness for Claim C7: dispatch of a request for an unexported method. -/
theorem dispatch_method_not_found_witness :
    dispatchBytes exampleTable exampleUnknownBody
      = (none, DispatchResponse.error (some 7) methodNotFoundCode
          "method not found") :=
  dispatch_method_not_found exampleTable exampleUnknownBody
    { id := 7, method := "nope", params := "null" } rfl rfl

/-- Claim C8: base64-decoding the `base64_data` and `output_mask` fields of
an encoded Success value yields exactly the original byte sequences passed
to the Encoder. -/
theorem encoder_base64_roundtrip (wdt hgt : Nat) (data mask : List Nat)
    (hd : ∀ b ∈ data, b < 256) (hm : ∀ b ∈ mask, b < 256) :
    base64Decode (mkSuccessValue wdt hgt data mask).base64Data = some data
    ∧ base64Decode (mkSuccessValue wdt hgt data mask).outputMask
        = some mask :=
  ⟨b64_roundtrip data hd, b64_roundtrip mask hm⟩

/-- Witness for Claim C8: round trip of two concrete payloads. -/
theorem encoder_base64_roundtrip_witness :
    base64Decode (mkSuccessValue 128 128 [0, 255, 100] [1, 2]).base64Data
        = some [0, 255, 100]
    ∧ base64Decode (mkSuccessValue 128 128 [0, 255, 100] [1, 2]).outputMask
        = some [1, 2] :=
  encoder_base64_roundtrip 128 128 [0, 255, 100] [1, 2]
    (by decide) (by decide)

/-- Claim C9: the acquire stage performs exactly two frame captures, keeps
only the second captured frame as the sample, raises the acquisition error
if and only if the second capture does not report success, and the result
of the first (discarded) capture has no effect on the handler's outcome. -/
theorem segment_camera_acquire_stage (model : ModelCtx) (cam : CameraEnv)
    (reqId : Option Int) :
    countFrameCaptures (segmentFromCamera model cam reqId).events = 2
    ∧ ((segmentFromCamera model cam reqId).response
        = RpcResponse.error reqId (-1) "Failed to get image from camera."
        ↔ cam.frame2Ok = false)
    ∧ (∀ b1 g1, segmentFromCamera model
          { cam with frame1Ok := b1, frame1 := g1 } reqId
        = segmentFromCamera model cam reqId)
    ∧ (cam.frame2Ok = true →
        (segmentFromCamera model cam reqId).inputCopied = some cam.frame2) := by
  obtain ⟨f1ok, f2ok, f1, f2⟩ := cam
  obtain ⟨dh, dw, inv, out⟩ := model
  cases f2ok
  · exact ⟨rfl, ⟨fun _ => rfl, fun _ => rfl⟩, fun b1 g1 => rfl,
      fun hc => by simp at hc⟩
  · cases inv
    · refine ⟨rfl, ⟨fun hcon => ?_, fun hc => by simp at hc⟩,
        fun b1 g1 => rfl, fun _ => rfl⟩
      injection hcon with hid hcode hmsg
      exact absurd hmsg (by decide)
    · exact ⟨rfl, ⟨fun hcon => RpcResponse.noConfusion hcon,
        fun hc => by simp at hc⟩, fun b1 g1 => rfl, fun _ => rfl⟩

/-- Witness for Claim C9: the acquire stage at a concrete environment. -/
theorem segment_camera_acquire_stage_witness :
    countFrameCaptures (segmentFromCamera modelEnv1 camFailEnv none).events
      = 2 :=
  (segment_camera_acquire_stage modelEnv1 camFailEnv none).1

/-- Claim C10: `Main` starts the server exactly when the model file reads,
the EdgeTPU device opens, tensor allocation succeeds and the loaded model
has exactly one input tensor; in particular every started server runs
against a model with exactly one input tensor, and otherwise the task
suspends with the server never exposed. -/
theorem main_startup_guard (e : StartupEnv) (n : Nat) :
    mainStartup e = MainOutcome.serverStarted n
      ↔ (e.modelReadOk = true ∧ e.tpuContextOk = true ∧ e.allocateOk = true
          ∧ e.numInputTensors = 1 ∧ n = 1) := by
  obtain ⟨m, t, a, k⟩ := e
  cases m
  · simp [mainStartup]
  · cases t
    · simp [mainStartup]
    · cases a
      · simp [mainStartup]
      · by_cases hk : k = 1
        · subst hk
          simp [mainStartup]
          constructor
          · intro h1
            exact h1.symm
          · intro h1
            exact h1.symm
        · simp [mainStartup, hk]

end CoralMicro
